import Mathlib

/-!
Shallow embedding of the `anis` 2D rectangle renderer
(`src/context.rs`, `src/lib.rs`).

Modelling conventions:

* Values of type `f32` are modelled as exact rationals (`ℚ`); the
  properties under study concern the exact algebra the code computes,
  not rounding.
* GPU objects (textures, texture views, buffers, bind groups) are
  modelled by the data the renderer stores in them.  A texture view is
  identified by a numeric id; each call to the texture constructor
  yields a fresh id, tracked by the `nextViewId` field.
* The wgpu collaborator is modelled at its documented interface:
  `Queue::write_buffer` validates that the write fits inside the target
  buffer and writes nothing otherwise, and `Device::create_bind_group`
  validates that a `TextureViewArray` binding supplies exactly as many
  views as the bind-group layout's `count` (1000) declares.  A failed
  validation surfaces as an uncaptured error — a panic — not as an
  `Err` return value of the renderer's own functions.
-/

namespace Anis

/-- A cgmath `Vector4` of `f32`, over exact rationals. -/
structure Vec4 where
  x : ℚ
  y : ℚ
  z : ℚ
  w : ℚ
  deriving DecidableEq

/-- A cgmath `Matrix4` of `f32`: four columns. -/
structure Mat4 where
  c0 : Vec4
  c1 : Vec4
  c2 : Vec4
  c3 : Vec4
  deriving DecidableEq

/-- The cgmath constructor `Matrix4::new`, which takes its sixteen
entries in column-major order (`c0x, c0y, c0z, c0w, c1x, ...`). -/
def Matrix4.new
    (c0x c0y c0z c0w c1x c1y c1z c1w c2x c2y c2z c2w c3x c3y c3z c3w : ℚ) :
    Mat4 :=
  ⟨⟨c0x, c0y, c0z, c0w⟩, ⟨c1x, c1y, c1z, c1w⟩,
   ⟨c2x, c2y, c2z, c2w⟩, ⟨c3x, c3y, c3z, c3w⟩⟩

/-- Matrix–vector product as cgmath computes it: the linear combination
of the matrix's columns by the vector's components. -/
def Mat4.mulVec (m : Mat4) (v : Vec4) : Vec4 :=
  ⟨m.c0.x * v.x + m.c1.x * v.y + m.c2.x * v.z + m.c3.x * v.w,
   m.c0.y * v.x + m.c1.y * v.y + m.c2.y * v.z + m.c3.y * v.w,
   m.c0.z * v.x + m.c1.z * v.y + m.c2.z * v.z + m.c3.z * v.w,
   m.c0.w * v.x + m.c1.w * v.y + m.c2.w * v.z + m.c3.w * v.w⟩

/-- Matrix–matrix product: the columns of `a * b` are `a` applied to
the columns of `b`. -/
def Mat4.mul (a b : Mat4) : Mat4 :=
  ⟨a.mulVec b.c0, a.mulVec b.c1, a.mulVec b.c2, a.mulVec b.c3⟩

/-- The constant `OPENGL_TO_WGPU_MATRIX` of `src/context.rs:10`.  The
sixteen literals are passed to the column-major `Matrix4::new`
constructor exactly in source order (so the third column is
`(0, 0, 0.5, 0.5)` and the fourth is `(0, 0, 0, 1)`). -/
def OPENGL_TO_WGPU_MATRIX : Mat4 :=
  Matrix4.new
    1 0 0 0
    0 1 0 0
    0 0 (1/2) (1/2)
    0 0 0 1

/-- The function `cgmath::ortho(left, right, bottom, top, near, far)`:
column-major entries `c0r0 = 2/(r-l)`, `c1r1 = 2/(t-b)`,
`c2r2 = -2/(f-n)`, translation column
`(-(r+l)/(r-l), -(t+b)/(t-b), -(f+n)/(f-n), 1)`. -/
def ortho (l r b t n f : ℚ) : Mat4 :=
  Matrix4.new
    (2 / (r - l)) 0 0 0
    0 (2 / (t - b)) 0 0
    0 0 (-2 / (f - n)) 0
    (-(r + l) / (r - l)) (-(t + b) / (t - b)) (-(f + n) / (f - n)) 1

/-- The function `Context::calculate_projection_matrix`
(`src/context.rs:503`): the depth-remap constant composed with an
orthographic transform over pixel space `(0,0)`–`(w,h)`, y increasing
downward (`bottom = h`, `top = 0`), near `-1`, far `1`.  The final
transmute to a byte array is elided; the value is kept as a matrix. -/
def calculate_projection_matrix (window_width window_height : ℚ) : Mat4 :=
  OPENGL_TO_WGPU_MATRIX.mul (ortho 0 window_width window_height 0 (-1) 1)

/-- Clip-space x/y coordinates of a transformed point, after the
perspective division by `w`. -/
def Vec4.clipXY (v : Vec4) : ℚ × ℚ := (v.x / v.w, v.y / v.w)

/-- The struct `RectangleDrawData` of `src/context.rs:52`:
`pos: [f32; 2]`, `size: [f32; 2]`, `color: [f32; 3]`,
`_padding: [u8; 4]`, laid out `repr(C)`.  These four fields are the
whole struct; it contains no texture-reference field. -/
structure RectangleDrawData where
  pos : ℚ × ℚ
  size : ℚ × ℚ
  color : ℚ × ℚ × ℚ
  padding : Nat × Nat × Nat × Nat
  deriving DecidableEq

/-- Byte size of `RectangleDrawData` under its `repr(C)` layout: two
`f32`, two `f32`, three `f32`, four `u8`, at offsets 0, 8, 16, 28 with
no interior padding (every field offset is already aligned). -/
def RectangleDrawData.byteSize : Nat := 2 * 4 + 2 * 4 + 3 * 4 + 4

/-- Number of texture slots in the bindless array: the literal `1000`
at `src/context.rs:237` (bind-group layout count), `:248` and `:461`
(placeholder fill loops). -/
def textureSlotCount : Nat := 1000

/-- Capacity of the rectangles storage buffer in records: the literal
`10000` at `src/context.rs:158`. -/
def rectangleSlotCount : Nat := 10000

/-- Renderer state: the data-carrying fields of `Context`
(`src/context.rs:17`), with GPU buffers modelled by their contents.
`projectionMatrixBytes` models the `projection_matrix_bytes` field and
`projectionBuffer` the contents of the GPU uniform buffer.  Texture
views are numeric ids; id 0 is the view of the 1×1 `empty_texture`
created in `Context::new`, and `nextViewId` is the id the next created
texture view will receive. -/
structure Context where
  size : Nat × Nat
  configWidth : Nat
  configHeight : Nat
  projectionMatrixBytes : Mat4
  projectionBuffer : Mat4
  rectanglesToRender : List RectangleDrawData
  rectanglesBuffer : List RectangleDrawData
  emptyTextureView : Nat
  textures : List Nat
  texturesBindGroup : List Nat
  nextViewId : Nat
  deriving DecidableEq

/-- An all-zero draw record.  WebGPU zero-initialises buffer memory, so
the freshly created rectangles buffer reads as zeroed records. -/
def zeroRecord : RectangleDrawData := ⟨(0, 0), (0, 0), (0, 0, 0), (0, 0, 0, 0)⟩

/-- The constructor `Context::new` (`src/context.rs:62`) for a window
of inner size `w × h`: zero registered textures, the textures bind
group filled with 1000 copies of the empty-texture view
(`src/context.rs:248`), the three-rectangle initial batch
(`src/context.rs:327`), and the projection computed from the window
size. -/
def Context.new (w h : Nat) : Context where
  size := (w, h)
  configWidth := w
  configHeight := h
  projectionMatrixBytes := calculate_projection_matrix w h
  projectionBuffer := calculate_projection_matrix w h
  rectanglesToRender :=
    [⟨(10, 10), (100, 100), (1, 1, 1), (0, 0, 0, 0)⟩,
     ⟨(120, 20), (100, 100), (1, 0.5, 1), (0, 0, 0, 0)⟩,
     ⟨(230, 50), (100, 150), (0.4, 0.3, 0.3), (0, 0, 0, 0)⟩]
  rectanglesBuffer := List.replicate rectangleSlotCount zeroRecord
  emptyTextureView := 0
  textures := []
  texturesBindGroup := List.replicate textureSlotCount 0
  nextViewId := 1

/-- Outcome of `Context::create_texture_from_raw_data`
(`src/context.rs:443`).  The source signature is
`Result<TextureHandle, &str>`, but the body contains no `Err` return;
the only failure mode is the wgpu validation error (an uncaptured-error
panic) raised by `create_bind_group` when the supplied view array does
not match the layout's declared count of 1000.  `validationPanic`
records the texture list as already mutated by the preceding `push`. -/
inductive RegisterResult where
  | ok (c : Context) (handle : Nat)
  | validationPanic (texturesAfterPush : List Nat)
  deriving DecidableEq

/-- The view list built at `src/context.rs:455-463`: every registered
texture's view in registration order, then the empty-texture view for
each index from `len` up to 1000 (an empty range when `len ≥ 1000`). -/
def buildTextureViews (textures : List Nat) (emptyView : Nat) : List Nat :=
  textures ++ List.replicate (textureSlotCount - textures.length) emptyView

/-- The method `Context::create_texture_from_raw_data`
(`src/context.rs:443`): create a fresh texture and view, push it onto
`textures`, rebuild the full view list, recreate the textures bind
group (wgpu validates the view count against the layout count of
1000), and return `Ok(self.textures.len() - 1)`.  The image payload
only determines the texel contents of the new texture, which no claim
observes, so it is elided. -/
def Context.create_texture_from_raw_data (c : Context) : RegisterResult :=
  let view := c.nextViewId
  let textures := c.textures ++ [view]
  let views := buildTextureViews textures c.emptyTextureView
  if views.length = textureSlotCount then
    RegisterResult.ok
      { c with textures := textures, texturesBindGroup := views,
               nextViewId := c.nextViewId + 1 }
      (textures.length - 1)
  else
    RegisterResult.validationPanic textures

/-- Commands recorded into the render pass at `src/context.rs:429-434`. -/
inductive RenderCmd where
  | setPipeline
  | setBindGroup (index : Nat)
  | draw (vertices : Nat) (instances : Nat)
  deriving DecidableEq

/-- Whether a command is the pipeline bind. -/
def RenderCmd.isSetPipeline : RenderCmd → Bool
  | RenderCmd.setPipeline => true
  | _ => false

/-- Whether a command is a draw call. -/
def RenderCmd.isDraw : RenderCmd → Bool
  | RenderCmd.draw _ _ => true
  | _ => false

/-- Vertex count computed at `src/context.rs:433`:
`6 * self.rectangles_to_render.len() as u32` — the `usize` length is
truncated to `u32`, then the multiplication wraps in `u32`. -/
def vertexCount (n : Nat) : Nat := 6 * (n % 2 ^ 32) % 2 ^ 32

/-- The render-pass body at `src/context.rs:429-434`: one pipeline
bind, two bind-group binds, and one draw over vertex range
`0..vertex_count` and instance range `0..1`. -/
def renderPassCommands (n : Nat) : List RenderCmd :=
  [RenderCmd.setPipeline, RenderCmd.setBindGroup 0, RenderCmd.setBindGroup 1,
   RenderCmd.draw (vertexCount n) 1]

/-- The call `Queue::write_buffer(&rectangles_buffer, 0, batch)` of
`src/context.rs:399`, at record granularity, with wgpu's validation
contract: the write must fit inside the buffer (whose size is
`10000 * size_of::<RectangleDrawData>()` bytes), otherwise a validation
error is raised and nothing is written. -/
def writeRectanglesBuffer (buffer batch : List RectangleDrawData) :
    Except String (List RectangleDrawData) :=
  if batch.length * RectangleDrawData.byteSize ≤
      rectangleSlotCount * RectangleDrawData.byteSize then
    Except.ok (batch ++ buffer.drop batch.length)
  else
    Except.error "write_buffer range exceeds buffer size"

/-- The method `Context::render` (`src/context.rs:387`) after a
successful surface acquisition: upload the whole batch at offset 0,
then record the pass commands.  An oversized batch fails
`write_buffer` validation, so nothing is uploaded and no truncated
frame is drawn. -/
def Context.render (c : Context) : Except String (Context × List RenderCmd) :=
  match writeRectanglesBuffer c.rectanglesBuffer c.rectanglesToRender with
  | Except.error e => Except.error e
  | Except.ok buf =>
      Except.ok ({ c with rectanglesBuffer := buf },
        renderPassCommands c.rectanglesToRender.length)

/-- The method `Context::resize` (`src/context.rs:357`): only when both
dimensions are positive, store the new size, reconfigure the surface to
it, recompute the projection matrix and write it to the projection
buffer; otherwise do nothing at all. -/
def Context.resize (c : Context) (newSize : Nat × Nat) : Context :=
  if 0 < newSize.1 ∧ 0 < newSize.2 then
    { c with
        size := newSize,
        configWidth := newSize.1,
        configHeight := newSize.2,
        projectionMatrixBytes :=
          calculate_projection_matrix newSize.1 newSize.2,
        projectionBuffer :=
          calculate_projection_matrix newSize.1 newSize.2 }
  else c

/-- The four variants of `wgpu::SurfaceError`. -/
inductive SurfaceError where
  | Timeout
  | Outdated
  | Lost
  | OutOfMemory
  deriving DecidableEq

/-- Whether the host event loop keeps running after handling an event. -/
inductive LoopAction where
  | Continue
  | Exit
  deriving DecidableEq

/-- The `RedrawRequested` arm of `ApplicationHandler::window_event`
(`src/lib.rs:40`), as a function of the `render()` outcome: `Lost` and
`Outdated` force `self.resize(self.size)` and continue; `OutOfMemory`
exits the event loop; `Timeout` only logs a warning; success changes
nothing. -/
def window_event_redraw (c : Context) (renderResult : Option SurfaceError) :
    Context × LoopAction :=
  match renderResult with
  | none => (c, LoopAction.Continue)
  | some SurfaceError.Lost => (c.resize c.size, LoopAction.Continue)
  | some SurfaceError.Outdated => (c.resize c.size, LoopAction.Continue)
  | some SurfaceError.OutOfMemory => (c, LoopAction.Exit)
  | some SurfaceError.Timeout => (c, LoopAction.Continue)

/-- One registration step, keeping only the renderer state (the panic
case keeps the prior state; it never occurs in the sequences considered
below, which stay within capacity). -/
def registerStep (c : Context) : Context :=
  match c.create_texture_from_raw_data with
  | RegisterResult.ok c' _ => c'
  | RegisterResult.validationPanic _ => c

/-- The handle returned by the next registration, when it succeeds. -/
def handleOf (c : Context) : Option Nat :=
  match c.create_texture_from_raw_data with
  | RegisterResult.ok _ h => some h
  | RegisterResult.validationPanic _ => none

/-- The state of a fresh `w × h` renderer after `k` registrations. -/
def stateAfter (w h : Nat) : Nat → Context
  | 0 => Context.new w h
  | k + 1 => registerStep (stateAfter w h k)

/-- A fresh renderer for an 800×600 window. -/
def freshContext : Context := Context.new 800 600

/-- A renderer already holding exactly 1000 registered textures (all
modelled with view id 2): the fixed slot capacity is exactly filled. -/
def atCapacityContext : Context :=
  { freshContext with
      textures := List.replicate textureSlotCount 2,
      texturesBindGroup := List.replicate textureSlotCount 2,
      nextViewId := 3 }

/-- The state after registering one texture on a fresh 800×600
renderer: one texture with view id 1, the bind group holding that view
followed by 999 placeholder views. -/
def firstRegistered : Context :=
  { freshContext with
      textures := [1],
      texturesBindGroup := buildTextureViews [1] 0,
      nextViewId := 2 }

/-- A renderer whose batch holds one more record than the rectangles
buffer can store. -/
def oversizedContext : Context :=
  { freshContext with
      rectanglesToRender := List.replicate (rectangleSlotCount + 1) zeroRecord }

/-! ## Helper lemmas -/

theorem Mat4.mulVec_mul (a b : Mat4) (v : Vec4) :
    (a.mul b).mulVec v = a.mulVec (b.mulVec v) := by
  cases a; cases b; cases v
  simp only [Mat4.mul, Mat4.mulVec, Vec4.mk.injEq]
  refine ⟨by ring, by ring, by ring, by ring⟩

theorem buildTextureViews_length (ts : List Nat) (e : Nat)
    (h : ts.length ≤ textureSlotCount) :
    (buildTextureViews ts e).length = textureSlotCount := by
  simp only [buildTextureViews, List.length_append, List.length_replicate]
  omega

/-- Characterisation of a registration that stays within capacity. -/
theorem create_ok_of_lt (c : Context)
    (h : c.textures.length < textureSlotCount) :
    c.create_texture_from_raw_data = RegisterResult.ok
      { c with
          textures := c.textures ++ [c.nextViewId],
          texturesBindGroup :=
            buildTextureViews (c.textures ++ [c.nextViewId]) c.emptyTextureView,
          nextViewId := c.nextViewId + 1 }
      c.textures.length := by
  have hlen : (c.textures ++ [c.nextViewId]).length ≤ textureSlotCount := by
    simp only [List.length_append, List.length_singleton]
    omega
  unfold Context.create_texture_from_raw_data
  rw [if_pos (buildTextureViews_length _ _ hlen)]
  simp only [List.length_append, List.length_singleton, RegisterResult.ok.injEq]
  exact ⟨trivial, by omega⟩

/-- Closed form of the state after `k` within-capacity registrations on
a fresh renderer: the texture views are `1, 2, ..., k` in order. -/
theorem stateAfter_spec (w h k : Nat) (hk : k ≤ textureSlotCount) :
    (stateAfter w h k).textures = (List.range k).map (· + 1) ∧
    (stateAfter w h k).nextViewId = k + 1 := by
  induction k with
  | zero => exact ⟨rfl, rfl⟩
  | succ k ih =>
    obtain ⟨h1, h2⟩ := ih (Nat.le_of_succ_le hk)
    have hlt : (stateAfter w h k).textures.length < textureSlotCount := by
      rw [h1]; simp only [List.length_map, List.length_range]; omega
    have hstep := create_ok_of_lt (stateAfter w h k) hlt
    constructor
    · show (registerStep (stateAfter w h k)).textures = _
      rw [registerStep, hstep]
      simp only [h1, h2, List.range_succ, List.map_append, List.map_cons,
        List.map_nil]
    · show (registerStep (stateAfter w h k)).nextViewId = _
      rw [registerStep, hstep]
      simp only [h2]

/-- Inversion of a successful registration: the texture was appended,
the bind group is the freshly built full view list, and the new count
is within capacity. -/
theorem create_ok_inv (c c' : Context) (hdl : Nat)
    (h : c.create_texture_from_raw_data = RegisterResult.ok c' hdl) :
    c'.textures = c.textures ++ [c.nextViewId] ∧
    c'.texturesBindGroup = buildTextureViews c'.textures c.emptyTextureView ∧
    c'.textures.length ≤ textureSlotCount := by
  simp only [Context.create_texture_from_raw_data] at h
  split at h
  case isTrue hcond =>
    injection h with h1 h2
    subst h1
    refine ⟨rfl, rfl, ?_⟩
    simp only [buildTextureViews, List.length_append, List.length_replicate,
      List.length_singleton] at hcond ⊢
    omega
  case isFalse hcond => exact absurd h (by simp)

/-- A within-capacity upload succeeds and replaces the front of the
buffer with the batch. -/
theorem writeRectangles_ok (buffer batch : List RectangleDrawData)
    (h : batch.length ≤ rectangleSlotCount) :
    writeRectanglesBuffer buffer batch
      = Except.ok (batch ++ buffer.drop batch.length) := by
  unfold writeRectanglesBuffer
  rw [if_pos (Nat.mul_le_mul_right _ h)]

/-- A frame whose batch fits the buffer renders: the batch is uploaded
at offset 0 and the pass commands are recorded. -/
theorem render_ok_of_le (c : Context)
    (h : c.rectanglesToRender.length ≤ rectangleSlotCount) :
    c.render = Except.ok
      ({ c with rectanglesBuffer :=
          c.rectanglesToRender ++
            c.rectanglesBuffer.drop c.rectanglesToRender.length },
       renderPassCommands c.rectanglesToRender.length) := by
  unfold Context.render
  rw [writeRectangles_ok _ _ h]

/-- A frame whose batch exceeds the buffer capacity fails the upload
validation; nothing is written and nothing is drawn. -/
theorem render_error_of_gt (c : Context)
    (h : rectangleSlotCount < c.rectanglesToRender.length) :
    c.render = Except.error "write_buffer range exceeds buffer size" := by
  have h32 : RectangleDrawData.byteSize = 32 := rfl
  have hcap : rectangleSlotCount = 10000 := rfl
  have hcond : ¬ (c.rectanglesToRender.length * RectangleDrawData.byteSize ≤
      rectangleSlotCount * RectangleDrawData.byteSize) := by
    rw [h32, hcap]
    rw [hcap] at h
    omega
  unfold Context.render writeRectanglesBuffer
  rw [if_neg hcond]

/-- For a batch within capacity, the truncated-to-u32 vertex count is
exactly six times the record count. -/
theorem vertexCount_eq (n : Nat) (h : n ≤ rectangleSlotCount) :
    vertexCount n = 6 * n := by
  have hcap : rectangleSlotCount = 10000 := rfl
  rw [hcap] at h
  have h32 : (2 : Nat) ^ 32 = 4294967296 := by norm_num
  unfold vertexCount
  rw [h32]
  omega

/-- A registration at (or beyond) full capacity takes the panic
branch, with the texture list already grown by the push. -/
theorem create_at_capacity (c : Context)
    (h : textureSlotCount ≤ c.textures.length) :
    c.create_texture_from_raw_data
      = RegisterResult.validationPanic (c.textures ++ [c.nextViewId]) := by
  have hlen : (buildTextureViews (c.textures ++ [c.nextViewId])
      c.emptyTextureView).length ≠ textureSlotCount := by
    simp only [buildTextureViews, List.length_append, List.length_replicate,
      List.length_singleton]
    omega
  simp only [Context.create_texture_from_raw_data]
  rw [if_neg hlen]

/-! ## Claim theorems -/

/-- C1 counterexample: with the slot capacity (1000) already filled, a
further registration does not return a CapacityExceeded error and does
not leave the renderer state unchanged: the texture list is first grown
to 1001 entries and the bind-group rebuild then fails wgpu validation
(an uncaptured-error panic), so the outcome is neither an `ok` return
nor an error return that preserves the registered count. -/
theorem register_beyond_capacity_cex :
    atCapacityContext.create_texture_from_raw_data
      = RegisterResult.validationPanic
          (List.replicate textureSlotCount 2 ++ [3]) ∧
    (List.replicate textureSlotCount 2 ++ [3]).length ≠
      atCapacityContext.textures.length := by
  have h1 : atCapacityContext.textures = List.replicate textureSlotCount 2 :=
    rfl
  have h2 : atCapacityContext.nextViewId = 3 := rfl
  have hlen : textureSlotCount ≤ atCapacityContext.textures.length := by
    rw [h1, List.length_replicate]
  constructor
  · rw [create_at_capacity _ hlen, h1, h2]
  · rw [h1, List.length_append, List.length_replicate, List.length_singleton]
    omega

/-- C1 (amended): the code performs no capacity check and defines no
CapacityExceeded error.  When the registered count already equals the
slot capacity (1000), a further registration first appends the new
texture — growing the registered count to 1001 — and then panics inside
wgpu bind-group validation; it never returns successfully and never
leaves the state unchanged. -/
theorem register_beyond_capacity_mutates_and_panics (c : Context)
    (h : c.textures.length = textureSlotCount) :
    c.create_texture_from_raw_data
      = RegisterResult.validationPanic (c.textures ++ [c.nextViewId]) ∧
    (c.textures ++ [c.nextViewId]).length = textureSlotCount + 1 ∧
    ∀ c' hdl, c.create_texture_from_raw_data ≠ RegisterResult.ok c' hdl := by
  have hmain : c.create_texture_from_raw_data
      = RegisterResult.validationPanic (c.textures ++ [c.nextViewId]) :=
    create_at_capacity c (Nat.le_of_eq h.symm)
  refine ⟨hmain, ?_, ?_⟩
  · simp only [List.length_append, List.length_singleton, h]
  · intro c' hdl hcontra
    rw [hmain] at hcontra
    exact RegisterResult.noConfusion hcontra

/-- C1 witness: the amended behaviour at the concrete at-capacity
renderer. -/
theorem register_beyond_capacity_witness :
    atCapacityContext.create_texture_from_raw_data
      = RegisterResult.validationPanic
          (atCapacityContext.textures ++ [atCapacityContext.nextViewId]) ∧
    (atCapacityContext.textures ++ [atCapacityContext.nextViewId]).length
      = textureSlotCount + 1 ∧
    ∀ c' hdl, atCapacityContext.create_texture_from_raw_data
      ≠ RegisterResult.ok c' hdl :=
  register_beyond_capacity_mutates_and_panics atCapacityContext
    (by rw [show atCapacityContext.textures
          = List.replicate textureSlotCount 2 from rfl,
        List.length_replicate])

/-- C3: a batch longer than the rectangle-buffer capacity (10000
records) makes the per-frame upload fail — wgpu rejects the oversized
write, so no silently truncated buffer is ever uploaded — while a batch
of length `n ≤ 10000` is copied in full into the storage buffer
starting at offset 0. -/
theorem render_upload_capacity (c : Context) :
    (rectangleSlotCount < c.rectanglesToRender.length →
      c.render = Except.error "write_buffer range exceeds buffer size") ∧
    (c.rectanglesToRender.length ≤ rectangleSlotCount →
      c.render = Except.ok
        ({ c with rectanglesBuffer :=
            c.rectanglesToRender ++
              c.rectanglesBuffer.drop c.rectanglesToRender.length },
         renderPassCommands c.rectanglesToRender.length) ∧
      (c.rectanglesToRender ++
        c.rectanglesBuffer.drop c.rectanglesToRender.length).take
          c.rectanglesToRender.length = c.rectanglesToRender) :=
  ⟨render_error_of_gt c,
   fun h => ⟨render_ok_of_le c h, List.take_left _ _⟩⟩

/-- C3 witness: an 10001-record batch fails the upload; the fresh
3-record batch uploads in full at offset 0. -/
theorem render_upload_capacity_witness :
    rectangleSlotCount < oversizedContext.rectanglesToRender.length ∧
    oversizedContext.render
      = Except.error "write_buffer range exceeds buffer size" ∧
    freshContext.rectanglesToRender.length ≤ rectangleSlotCount ∧
    (freshContext.rectanglesToRender ++
      freshContext.rectanglesBuffer.drop
        freshContext.rectanglesToRender.length).take
      freshContext.rectanglesToRender.length
      = freshContext.rectanglesToRender := by
  have hgt : rectangleSlotCount < oversizedContext.rectanglesToRender.length := by
    rw [show oversizedContext.rectanglesToRender
        = List.replicate (rectangleSlotCount + 1) zeroRecord from rfl,
      List.length_replicate]
    omega
  have hle : freshContext.rectanglesToRender.length ≤ rectangleSlotCount := by
    rw [show freshContext.rectanglesToRender.length = 3 from rfl]
    rw [show rectangleSlotCount = 10000 from rfl]
    omega
  exact ⟨hgt, (render_upload_capacity oversizedContext).1 hgt, hle,
    ((render_upload_capacity freshContext).2 hle).2⟩

/-- C4: after every successful registration the bind group is a
full-capacity 1000-entry list whose first `k` slots hold the views of
the `k` registered textures in handle order and whose remaining slots
all hold the shared 1×1 placeholder (empty-texture) view — no slot is
left uninitialised. -/
theorem bind_group_full_capacity (c c' : Context) (hdl : Nat)
    (h : c.create_texture_from_raw_data = RegisterResult.ok c' hdl) :
    c'.texturesBindGroup.length = textureSlotCount ∧
    (∀ i, i < c'.textures.length →
      c'.texturesBindGroup[i]? = c'.textures[i]?) ∧
    ∀ i, c'.textures.length ≤ i → i < textureSlotCount →
      c'.texturesBindGroup[i]? = some c.emptyTextureView := by
  obtain ⟨ht, hbg, hle⟩ := create_ok_inv c c' hdl h
  refine ⟨?_, ?_, ?_⟩
  · rw [hbg]
    exact buildTextureViews_length _ _ hle
  · intro i hi
    rw [hbg, buildTextureViews, List.getElem?_append_left hi]
  · intro i h1 h2
    rw [hbg, buildTextureViews, List.getElem?_append_right h1,
      List.getElem?_replicate_of_lt (by omega)]

/-- C4 witness: the first registration on a fresh renderer yields a
1000-entry bind group: slot 0 holds the new texture's view, the rest
hold the placeholder view. -/
theorem bind_group_full_capacity_witness :
    firstRegistered.texturesBindGroup.length = textureSlotCount ∧
    (∀ i, i < firstRegistered.textures.length →
      firstRegistered.texturesBindGroup[i]? = firstRegistered.textures[i]?) ∧
    ∀ i, firstRegistered.textures.length ≤ i → i < textureSlotCount →
      firstRegistered.texturesBindGroup[i]? = some freshContext.emptyTextureView :=
  bind_group_full_capacity freshContext firstRegistered 0 (by
    rw [create_ok_of_lt freshContext (by
      rw [show freshContext.textures.length = 0 from rfl,
        show textureSlotCount = 1000 from rfl]
      omega)]
    rfl)

/-- C5: starting from a fresh renderer, the `(k+1)`-th registration
returns handle `k` — so handles are issued sequentially `0, 1, 2, ...`
with no gaps or reuse — and every previously issued handle `j` still
indexes the very texture (view `j+1`) registered when it was issued. -/
theorem handles_sequential (w h k : Nat) (hk : k < textureSlotCount) :
    handleOf (stateAfter w h k) = some k ∧
    ∀ j, j < k → (stateAfter w h k).textures[j]? = some (j + 1) := by
  obtain ⟨h1, h2⟩ := stateAfter_spec w h k (Nat.le_of_lt hk)
  have hlen : (stateAfter w h k).textures.length = k := by
    rw [h1]
    simp only [List.length_map, List.length_range]
  have hlt : (stateAfter w h k).textures.length < textureSlotCount := by
    omega
  have hcreate := create_ok_of_lt (stateAfter w h k) hlt
  constructor
  · simp only [handleOf, hcreate]
    rw [hlen]
  · intro j hj
    rw [h1]
    simp only [List.getElem?_map, List.getElem?_range hj, Option.map_some']

/-- C5 witness: the third registration on a fresh 800×600 renderer
returns handle 2, and handles 0 and 1 still index views 1 and 2. -/
theorem handles_sequential_witness :
    handleOf (stateAfter 800 600 2) = some 2 ∧
    ∀ j, j < 2 → (stateAfter 800 600 2).textures[j]? = some (j + 1) :=
  handles_sequential 800 600 2 (by rw [show textureSlotCount = 1000 from rfl]; omega)

/-- C6: the projection is the pure function of the viewport size that
composes the depth-remap constant `OPENGL_TO_WGPU_MATRIX` with the
orthographic transform over pixel space `(0,0)`–`(w,h)` (y down,
near `-1`, far `1`), and for positive `w`, `h` it sends pixel `(0,0)`
to the top-left clip corner `(-1, 1)` and pixel `(w,h)` to the
bottom-right clip corner `(1, -1)`. -/
theorem projection_corner_mapping (w h : ℚ) (hw : 0 < w) (hh : 0 < h) :
    calculate_projection_matrix w h
      = OPENGL_TO_WGPU_MATRIX.mul (ortho 0 w h 0 (-1) 1) ∧
    ((calculate_projection_matrix w h).mulVec ⟨0, 0, 0, 1⟩).clipXY
      = (-1, 1) ∧
    ((calculate_projection_matrix w h).mulVec ⟨w, h, 0, 1⟩).clipXY
      = (1, -1) := by
  have hw' : w ≠ 0 := hw.ne'
  have hh' : h ≠ 0 := hh.ne'
  refine ⟨rfl, ?_, ?_⟩ <;>
  · simp only [calculate_projection_matrix, OPENGL_TO_WGPU_MATRIX, ortho,
      Matrix4.new, Mat4.mul, Mat4.mulVec, Vec4.clipXY, Prod.mk.injEq]
    refine ⟨?_, ?_⟩ <;>
      (field_simp; try ring;
       try norm_num [mul_inv_cancel₀ hw', mul_inv_cancel₀ hh'])

/-- C6 witness: the corner mapping at the concrete viewport 800×600. -/
theorem projection_corner_mapping_witness :
    calculate_projection_matrix 800 600
      = OPENGL_TO_WGPU_MATRIX.mul (ortho 0 800 600 0 (-1) 1) ∧
    ((calculate_projection_matrix 800 600).mulVec ⟨0, 0, 0, 1⟩).clipXY
      = (-1, 1) ∧
    ((calculate_projection_matrix 800 600).mulVec ⟨800, 600, 0, 1⟩).clipXY
      = (1, -1) :=
  projection_corner_mapping 800 600 (by norm_num) (by norm_num)

/-- C8: every successfully rendered frame binds the pipeline exactly
once and issues exactly one draw call, spanning `6 × n` vertices over
the single instance range `0..1`, where `n` is the batch length. -/
theorem render_single_draw_call (c : Context)
    (h : c.rectanglesToRender.length ≤ rectangleSlotCount) :
    ∃ c', c.render = Except.ok
        (c', renderPassCommands c.rectanglesToRender.length) ∧
      (renderPassCommands c.rectanglesToRender.length).countP
        RenderCmd.isSetPipeline = 1 ∧
      (renderPassCommands c.rectanglesToRender.length).countP
        RenderCmd.isDraw = 1 ∧
      (renderPassCommands c.rectanglesToRender.length).filter
        RenderCmd.isDraw
        = [RenderCmd.draw (6 * c.rectanglesToRender.length) 1] := by
  refine ⟨_, render_ok_of_le c h, ?_, ?_, ?_⟩ <;>
    simp [renderPassCommands, List.countP_cons, RenderCmd.isSetPipeline,
      RenderCmd.isDraw, List.filter, vertexCount_eq _ h]

/-- C8 witness: the fresh renderer's 3-record frame renders with one
pipeline bind and one draw of 18 vertices, 1 instance. -/
theorem render_single_draw_call_witness :
    freshContext.rectanglesToRender.length ≤ rectangleSlotCount ∧
    ∃ c', freshContext.render = Except.ok
        (c', renderPassCommands freshContext.rectanglesToRender.length) ∧
      (renderPassCommands freshContext.rectanglesToRender.length).countP
        RenderCmd.isSetPipeline = 1 ∧
      (renderPassCommands freshContext.rectanglesToRender.length).countP
        RenderCmd.isDraw = 1 ∧
      (renderPassCommands freshContext.rectanglesToRender.length).filter
        RenderCmd.isDraw
        = [RenderCmd.draw (6 * freshContext.rectanglesToRender.length) 1] := by
  have hle : freshContext.rectanglesToRender.length ≤ rectangleSlotCount := by
    rw [show freshContext.rectanglesToRender.length = 3 from rfl]
    rw [show rectangleSlotCount = 10000 from rfl]
    omega
  exact ⟨hle, render_single_draw_call freshContext hle⟩

/-- C2 counterexample: the claim asserts every `DrawRecord` carries an
optional texture reference, i.e. that two records could agree on
position, size, color and padding yet differ (in their texture
reference).  In the code's `RectangleDrawData` no such pair exists:
the struct has no texture-reference field. -/
theorem draw_record_texture_reference_cex :
    ¬ ∃ r₁ r₂ : RectangleDrawData, r₁.pos = r₂.pos ∧ r₁.size = r₂.size ∧
      r₁.color = r₂.color ∧ r₁.padding = r₂.padding ∧ r₁ ≠ r₂ := by
  rintro ⟨r₁, r₂, hp, hs, hc, hd, hne⟩
  cases r₁; cases r₂
  exact hne (by simp_all)

/-- C2 (amended): a `RectangleDrawData` consists of a 2D float
position, a 2D float size, a 3-component float color and 4 bytes of
padding, for a record size of 32 bytes — a multiple of 16; it contains
no texture-reference field, so a record is fully determined by those
four fields. -/
theorem draw_record_layout :
    RectangleDrawData.byteSize = 32 ∧ RectangleDrawData.byteSize % 16 = 0 ∧
    ∀ r₁ r₂ : RectangleDrawData, r₁.pos = r₂.pos → r₁.size = r₂.size →
      r₁.color = r₂.color → r₁.padding = r₂.padding → r₁ = r₂ := by
  refine ⟨rfl, rfl, ?_⟩
  intro r₁ r₂ hp hs hc hd
  cases r₁; cases r₂
  simp_all

/-- C2 witness: the layout facts, and determinacy applied to a concrete
record. -/
theorem draw_record_layout_witness :
    RectangleDrawData.byteSize = 32 ∧ zeroRecord = zeroRecord :=
  ⟨draw_record_layout.1, draw_record_layout.2.2 zeroRecord zeroRecord rfl rfl rfl rfl⟩

/-- C7: a resize request with a zero width or height is a complete
no-op — the stored size, surface configuration and cached projection
matrix (and its GPU buffer) are all unchanged — and a subsequent resize
with positive dimensions behaves exactly as if the zero-size request
had never happened. -/
theorem resize_zero_noop (c : Context) (w h : Nat) (hz : w = 0 ∨ h = 0) :
    c.resize (w, h) = c ∧
    ∀ w' h', 0 < w' → 0 < h' →
      (c.resize (w, h)).resize (w', h') = c.resize (w', h') := by
  have hnoop : c.resize (w, h) = c := by
    unfold Context.resize
    rw [if_neg]
    rintro ⟨h1, h2⟩
    rcases hz with rfl | rfl <;> omega
  exact ⟨hnoop, fun w' h' _ _ => by rw [hnoop]⟩

/-- C7 witness: resizing an 800×600 renderer to 0×600 changes nothing,
and a later positive resize applies normally. -/
theorem resize_zero_noop_witness :
    freshContext.resize (0, 600) = freshContext ∧
    ∀ w' h', 0 < w' → 0 < h' →
      (freshContext.resize (0, 600)).resize (w', h') =
        freshContext.resize (w', h') :=
  resize_zero_noop freshContext 0 600 (Or.inl rfl)

/-- C9: the render-loop outcome is determined by the surface error
class: `Lost`/`Outdated` force a reconfigure at the current size and
the loop continues; `OutOfMemory` is the only error that exits the host
loop; `Timeout` skips the frame with the renderer state intact. -/
theorem surface_error_handling (c : Context) :
    window_event_redraw c (some SurfaceError.Lost)
      = (c.resize c.size, LoopAction.Continue) ∧
    window_event_redraw c (some SurfaceError.Outdated)
      = (c.resize c.size, LoopAction.Continue) ∧
    window_event_redraw c (some SurfaceError.OutOfMemory)
      = (c, LoopAction.Exit) ∧
    window_event_redraw c (some SurfaceError.Timeout)
      = (c, LoopAction.Continue) ∧
    ∀ r, (window_event_redraw c r).2 = LoopAction.Exit ↔
      r = some SurfaceError.OutOfMemory := by
  refine ⟨rfl, rfl, rfl, rfl, ?_⟩
  intro r
  match r with
  | none => simp [window_event_redraw]
  | some SurfaceError.Lost => simp [window_event_redraw]
  | some SurfaceError.Outdated => simp [window_event_redraw]
  | some SurfaceError.OutOfMemory => simp [window_event_redraw]
  | some SurfaceError.Timeout => simp [window_event_redraw]

/-- C9 witness: the error handling evaluated on the concrete fresh
renderer. -/
theorem surface_error_handling_witness :
    window_event_redraw freshContext (some SurfaceError.OutOfMemory)
      = (freshContext, LoopAction.Exit) ∧
    window_event_redraw freshContext (some SurfaceError.Timeout)
      = (freshContext, LoopAction.Continue) :=
  ⟨(surface_error_handling freshContext).2.2.1,
   (surface_error_handling freshContext).2.2.2.1⟩

/-- C10: immediately after construction the rectangle batch holds
exactly the three pre-populated rectangles at positions (10,10),
(120,20), (230,50) with sizes (100,100), (100,100), (100,150) and
colors (1,1,1), (1,0.5,1), (0.4,0.3,0.3), and the registered-texture
list is empty. -/
theorem initial_state_contents (w h : Nat) :
    (Context.new w h).rectanglesToRender =
      [⟨(10, 10), (100, 100), (1, 1, 1), (0, 0, 0, 0)⟩,
       ⟨(120, 20), (100, 100), (1, 0.5, 1), (0, 0, 0, 0)⟩,
       ⟨(230, 50), (100, 150), (0.4, 0.3, 0.3), (0, 0, 0, 0)⟩] ∧
    (Context.new w h).rectanglesToRender ≠ [] ∧
    (Context.new w h).textures = [] :=
  ⟨rfl, List.cons_ne_nil _ _, rfl⟩

/-- C10 witness: the initial contents evaluated at the concrete 800×600
window. -/
theorem initial_state_contents_witness :
    (Context.new 800 600).rectanglesToRender ≠ [] ∧
    (Context.new 800 600).textures = [] :=
  ⟨(initial_state_contents 800 600).2.1, (initial_state_contents 800 600).2.2⟩

end Anis
